import Mathlib

/-!
Verification development for the `cv` repository's PDF export script
(`scripts/export-pdf.js`).  The script is a single linear Puppeteer
automation: check that `index.html` exists, launch a headless browser,
navigate to the file, wait for fonts / images / CSS background images with
bounded per-asset timeouts, pause briefly, normalize `tel:` and `mailto:`
links in the DOM, overwrite the document title, print the page to a PDF
with fixed geometry, and close the browser on every exit path.

The embedding below models:
  * the JavaScript string primitives used by the link-normalization code
    (`trim`, `startsWith`, `replace` of a guaranteed prefix);
  * the DOM anchors touched by the normalization passes;
  * the per-asset wait promises (load / error / 5000 ms timeout, all of
    which call `resolve`) and the resulting phase durations;
  * the linear sequence of awaited browser steps, each of which may throw,
    with the `try`/`catch`/`finally` structure and the top-level
    `.catch` handler that sets `process.exitCode = 1`.
-/

namespace CvExport

/-- Characters removed by JavaScript's `String.prototype.trim` (the
whitespace characters that can actually occur here: space, tab, LF, CR,
VT, FF, NBSP and the BOM). -/
def jsWhitespace (c : Char) : Bool :=
  c == ' ' || c == '\t' || c == '\n' || c == '\r' ||
  c == Char.ofNat 11 || c == Char.ofNat 12 ||
  c == Char.ofNat 160 || c == Char.ofNat 65279

/-- `trim` on the underlying character list: remove trailing whitespace
(via reverse), then leading whitespace. -/
def jsTrimList (l : List Char) : List Char :=
  ((l.reverse.dropWhile jsWhitespace).reverse).dropWhile jsWhitespace

/-- JavaScript `s.trim()`. -/
def jsTrim (s : String) : String := ⟨jsTrimList s.data⟩

/-- JavaScript `s.startsWith(pre)`. -/
def jsStartsWith (s pre : String) : Bool := pre.data.isPrefixOf s.data

/-- JavaScript `s.replace(pat, '')` for the script's calls: every call site
(`telNumber.replace('tel:', '')`, `href.replace('mailto:', '')`) is guarded
by a `startsWith` check or an attribute selector, so the first occurrence
of the pattern is the leading prefix and replacing it with `''` drops
`pat.length` characters from the front. -/
def stripPre (s pat : String) : String := ⟨s.data.drop pat.data.length⟩

/-- One `<a>` element as seen by the link-normalization code: its `href`,
its optional `title` and `data-phone` attributes, and the two inline style
properties the script writes. -/
structure Anchor where
  href : String
  title : Option String
  dataPhone : Option String
  pointerEvents : Option String
  cursor : Option String
deriving DecidableEq, Repr

/-- JavaScript truthiness test `!link.getAttribute('title')`:
`getAttribute` yields `null` when the attribute is absent, and both `null`
and the empty string are falsy. -/
def titleFalsy : Option String → Bool
  | none => true
  | some s => s == ""

/-- The `tel:` loop body (export-pdf.js lines 110-132): for an anchor
matched by `a[href^="tel:"]` (re-checked by the inner
`telNumber.startsWith('tel:')` guard), trim the number after `tel:`,
prefix `+` unless already present, and set `href`, `data-phone`, a
`title` when none is set, and the two style properties. -/
def telFix (a : Anchor) : Anchor :=
  if jsStartsWith a.href "tel:" then
    let phoneNumber := jsTrim (stripPre a.href "tel:")
    let normalizedTel :=
      if jsStartsWith phoneNumber "+" then "tel:" ++ phoneNumber
      else "tel:+" ++ phoneNumber
    { a with
      href := normalizedTel
      dataPhone := some phoneNumber
      title :=
        if titleFalsy a.title then some ("Call " ++ phoneNumber) else a.title
      pointerEvents := some "auto"
      cursor := some "pointer" }
  else a

/-- The `mailto:` loop body (export-pdf.js lines 135-143): for an anchor
matched by `a[href^="mailto:"]`, set a `title` when none is set and the two
style properties; the `href` is never written. -/
def mailtoFix (a : Anchor) : Anchor :=
  if jsStartsWith a.href "mailto:" then
    { a with
      title :=
        if titleFalsy a.title then
          some ("Email " ++ stripPre a.href "mailto:")
        else a.title
      pointerEvents := some "auto"
      cursor := some "pointer" }
  else a

/-- Effect of the whole link-normalization `page.evaluate` on one anchor:
the `tel:` loop runs first over all anchors, then the `mailto:` loop (the
two selectors are disjoint and the first loop never produces a
`mailto:`-prefixed href, so per-anchor composition is faithful). -/
def normAnchor (a : Anchor) : Anchor := mailtoFix (telFix a)

/-- Link normalization over the document's anchor list. -/
def normalizeLinks (anchors : List Anchor) : List Anchor :=
  (anchors.map telFix).map mailtoFix

/-- The `href` rewrite performed by the `tel:` loop, as a function of the
href alone (the loop's href output depends on nothing else): the
trimmed number with a `+` prefixed unless already present
(export-pdf.js lines 115-120). -/
def hrefFix (h : String) : String :=
  if jsStartsWith h "tel:" then
    let phoneNumber := jsTrim (stripPre h "tel:")
    if jsStartsWith phoneNumber "+" then "tel:" ++ phoneNumber
    else "tel:+" ++ phoneNumber
  else h

/-- The constant assigned to `document.title` just before `page.pdf`
(export-pdf.js line 149). -/
def cvTitle : String := "Joe Sturdy - AI Solutions Architect CV"

/-- The DOM state the script manipulates: the anchor list and the
document title. -/
structure PageDoc where
  anchors : List Anchor
  title : String
deriving DecidableEq, Repr

/-- Effect of the link-normalization `page.evaluate` on the document. -/
def normalizeLinksDoc (d : PageDoc) : PageDoc :=
  { d with anchors := normalizeLinks d.anchors }

/-- Effect of the title-setting `page.evaluate`:
`document.title = 'Joe Sturdy - AI Solutions Architect CV'`. -/
def setTitleDoc (d : PageDoc) : PageDoc := { d with title := cvTitle }

/-- The options record passed to `page.pdf` (export-pdf.js lines 153-165).
Margins are the four numeric fields of the `margin` object. -/
structure PdfOptions where
  path : String
  width : String
  height : String
  printBackground : Bool
  preferCSSPageSize : Bool
  marginTop : Nat
  marginBottom : Nat
  marginLeft : Nat
  marginRight : Nat
  scale : Nat
  displayHeaderFooter : Bool
  tag : Bool
  outline : Bool
deriving DecidableEq, Repr

/-- `path.join(projectRoot, 'dist', 'Joe-Sturdy-CV.pdf')`. -/
def outputPath (projectRoot : String) : String :=
  projectRoot ++ "/dist/Joe-Sturdy-CV.pdf"

/-- `path.join(projectRoot, 'index.html')`. -/
def htmlPath (projectRoot : String) : String := projectRoot ++ "/index.html"

/-- `new URL('file://' + htmlPath).href`. -/
def fileUrl (projectRoot : String) : String := "file://" ++ htmlPath projectRoot

/-- The concrete argument of the script's single `page.pdf` call. -/
def pdfOpts (projectRoot : String) : PdfOptions :=
  { path := outputPath projectRoot
    width := "210mm"
    height := "297mm"
    printBackground := true
    preferCSSPageSize := true
    marginTop := 0
    marginBottom := 0
    marginLeft := 0
    marginRight := 0
    scale := 1
    displayHeaderFooter := false
    tag := true
    outline := true }

/-- A PDF file on disk, as far as the spec's observable properties go. -/
structure PdfFile where
  path : String
  sizeBytes : Nat
  pageWidth : String
  pageHeight : String
  marginTop : Nat
  marginBottom : Nat
  marginLeft : Nat
  marginRight : Nat
  backgroundsPrinted : Bool
  tagged : Bool
  outlined : Bool
  title : String
deriving DecidableEq, Repr

/-- Modelled from the spec: the rasterizer behind `page.pdf` and the
repository's input document are not under `src/` (only the automation
script is).  The spec fixes the observable output: "a single PDF file at a
fixed path, fixed physical page size (210mm × 297mm), zero margins,
backgrounds preserved, optional tagged/outline accessibility metadata",
produced "with nonzero size".  Accordingly the produced file takes its
path, page size, margins and flags from the call's options, carries the
document title as metadata, and its byte size is a positive base plus the
rendered content length (the page size does not depend on the content
length). -/
def renderPdf (o : PdfOptions) (docTitle : String) (contentLength : Nat) : PdfFile :=
  { path := o.path
    sizeBytes := 1024 + contentLength
    pageWidth := o.width
    pageHeight := o.height
    marginTop := o.marginTop
    marginBottom := o.marginBottom
    marginLeft := o.marginLeft
    marginRight := o.marginRight
    backgroundsPrinted := o.printBackground
    tagged := o.tag
    outlined := o.outline
    title := docTitle }

/-- One `<img>` element at `page.evaluate` time: its `complete` flag and
the (possibly absent) future times of its `load` and `error` events,
measured from the start of the wait. -/
structure ImgAsset where
  complete : Bool
  loadAt : Option Nat
  errorAt : Option Nat
deriving DecidableEq, Repr

/-- One discovered CSS background-image URL: the (possibly absent) future
times of the probe `Image`'s `onload` and `onerror` events. -/
structure BgAsset where
  loadAt : Option Nat
  errorAt : Option Nat
deriving DecidableEq, Repr

/-- Outcome of a JavaScript promise: settled by `resolve` or by `reject`
at a given time. -/
inductive Settle
  | resolved (t : Nat)
  | rejected (t : Nat)
deriving DecidableEq, Repr

/-- Whether the promise settled via `resolve`. -/
def Settle.isResolved : Settle → Bool
  | .resolved _ => true
  | .rejected _ => false

/-- The settling time of the promise. -/
def Settle.time : Settle → Nat
  | .resolved _t => _t
  | .rejected _t => _t

/-- Earliest of the load event, the error event and the `setTimeout`
callback: whichever fires first settles the promise. -/
def firstSettleTime (timeoutMs : Nat) (loadAt errorAt : Option Nat) : Nat :=
  min (min (loadAt.getD timeoutMs) (errorAt.getD timeoutMs)) timeoutMs

/-- The per-image wait promise (export-pdf.js lines 62-70): already
`complete` images resolve immediately; otherwise `load`, `error` and the
5000 ms `setTimeout` all call `resolve`, so the promise resolves at the
earliest of the three and no handler ever rejects. -/
def imgWaitSettle (img : ImgAsset) : Settle :=
  if img.complete then .resolved 0
  else .resolved (firstSettleTime 5000 img.loadAt img.errorAt)

/-- The per-background-image wait promise (export-pdf.js lines 90-99):
`onload`, `onerror` and the 5000 ms `setTimeout` all call `resolve`. -/
def bgWaitSettle (bg : BgAsset) : Settle :=
  .resolved (firstSettleTime 5000 bg.loadAt bg.errorAt)

/-- Duration of the `Promise.all` over the image waits: the promises run
in parallel, so the join settles at the latest individual time. -/
def imagesPhaseDuration (imgs : List ImgAsset) : Nat :=
  imgs.foldr (fun i acc => max (imgWaitSettle i).time acc) 0

/-- Duration of the `Promise.all` over the background-image waits. -/
def bgPhaseDuration (bgs : List BgAsset) : Nat :=
  bgs.foldr (fun b acc => max (bgWaitSettle b).time acc) 0

/-- The assets a given run encounters: when (if ever) `document.fonts.ready`
resolves, the `<img>` elements, and the discovered background URLs. -/
structure Assets where
  fontsReadyAt : Option Nat
  images : List ImgAsset
  bgUrls : List BgAsset
deriving DecidableEq, Repr

/-- Total duration of the asset-loading phase: the three waits run
sequentially.  `await document.fonts.ready` (line 54-56) has no timeout,
so the phase completes only if the fonts signal fires; the image and
background phases always complete. -/
def assetPhaseDuration (a : Assets) : Option Nat :=
  match a.fontsReadyAt with
  | none => none
  | some tf => some (tf + imagesPhaseDuration a.images + bgPhaseDuration a.bgUrls)

/-- The per-category timeouts that exist in the asset-loading phase: 5000 ms
for the image waits and 5000 ms for the background-image waits. -/
def perCategoryTimeoutSum : Nat := 5000 + 5000

/-- The awaited browser-lifecycle steps, in source order. -/
inductive Ev
  | launch
  | newPage
  | setViewport (width height scaleFactor : Nat)
  | emulateMedia (mt : String)
  | goto (url : String) (timeoutMs : Nat)
  | evalFontsReady
  | evalWaitImages
  | evalWaitBgImages
  | sleep (ms : Nat)
  | evalNormalizeLinks
  | evalSetTitle (t : String)
  | pdf (o : PdfOptions)
  | close
deriving DecidableEq, Repr

/-- The environment a run executes in: the project root, whether
`index.html` exists, which awaited browser calls succeed (each `await`ed
library call can throw), the assets, and the loaded document. -/
structure Env where
  projectRoot : String
  htmlExists : Bool
  launchOk : Bool
  newPageOk : Bool
  viewportOk : Bool
  mediaOk : Bool
  gotoOk : Bool
  fontsEvalOk : Bool
  imagesEvalOk : Bool
  bgEvalOk : Bool
  linksEvalOk : Bool
  titleEvalOk : Bool
  pdfOk : Bool
  assets : Assets
  docAnchors : List Anchor
  docTitle : String
  contentLength : Nat
deriving Repr

/-- The body of the `try` block: the awaited steps after `puppeteer.launch`,
in source order, paired with whether each succeeds in the given
environment.  The viewport numbers are `Math.round(210 * 3.779527559) = 794`
and `Math.round(297 * 3.779527559) = 1123`.  The 1500 ms settling pause is a
plain `setTimeout` promise and cannot throw. -/
def bodySteps (e : Env) : List (Ev × Bool) :=
  [ (.newPage, e.newPageOk),
    (.setViewport 794 1123 2, e.viewportOk),
    (.emulateMedia "print", e.mediaOk),
    (.goto (fileUrl e.projectRoot) 30000, e.gotoOk),
    (.evalFontsReady, e.fontsEvalOk),
    (.evalWaitImages, e.imagesEvalOk),
    (.evalWaitBgImages, e.bgEvalOk),
    (.sleep 1500, true),
    (.evalNormalizeLinks, e.linksEvalOk),
    (.evalSetTitle cvTitle, e.titleEvalOk),
    (.pdf (pdfOpts e.projectRoot), e.pdfOk) ]

/-- Run a linear sequence of awaited steps: each step is attempted in
order; the first failing step throws, which abandons the rest.  Returns the
attempted steps and whether the whole sequence completed. -/
def runSeq : List (Ev × Bool) → List Ev × Bool
  | [] => ([], true)
  | s :: rest =>
    if s.2 then
      let r := runSeq rest
      (s.1 :: r.1, r.2)
    else ([s.1], false)

/-- Result of one invocation of `exportPdf`: the attempted browser steps,
the console output, and the returned/raised outcome. -/
structure RunResult where
  events : List Ev
  logs : List String
  outcome : Except String Unit
deriving Repr

/-- The `exportPdf` function (export-pdf.js lines 10-177): fail fast when
`index.html` is missing, launch the browser, run the linear `try` body,
log success or log-and-rethrow the error (`catch`), and close the browser
on every path after launch (`finally`). -/
def exportPdf (e : Env) : RunResult :=
  if e.htmlExists = false then
    { events := []
      logs := []
      outcome := .error ("index.html not found at " ++ htmlPath e.projectRoot) }
  else if e.launchOk = false then
    { events := [.launch]
      logs := []
      outcome := .error "launch failed" }
  else
    let r := runSeq (bodySteps e)
    { events := .launch :: (r.1 ++ [.close])
      logs :=
        if r.2 then ["PDF exported successfully to " ++ outputPath e.projectRoot]
        else ["Error generating PDF: browser step failed"]
      outcome := if r.2 then .ok () else .error "browser step failed" }

/-- The document as loaded by `page.goto`. -/
def pageLoaded (e : Env) : PageDoc :=
  { anchors := e.docAnchors, title := e.docTitle }

/-- The document state at the moment `page.pdf` runs: the loaded document
after the link-normalization evaluate and then the title-setting
evaluate. -/
def pageAtPdf (e : Env) : PageDoc :=
  setTitleDoc (normalizeLinksDoc (pageLoaded e))

/-- The PDF files on disk after the run: `page.pdf` writes its output only
when it executes and succeeds, which in the linear sequence is exactly
when the whole run succeeds (the only later statement is `console.log`). -/
def filesWritten (e : Env) : List PdfFile :=
  match (exportPdf e).outcome with
  | .ok _ => [renderPdf (pdfOpts e.projectRoot) (pageAtPdf e).title e.contentLength]
  | .error _ => []

/-- Observable result of `node scripts/export-pdf.js`. -/
structure ScriptResult where
  logs : List String
  exitCode : Nat
deriving DecidableEq, Repr

/-- The top-level invocation (export-pdf.js lines 179-182):
`exportPdf().catch(err => { console.error(err); process.exitCode = 1; })`.
The default exit code is 0. -/
def runScript (e : Env) : ScriptResult :=
  match (exportPdf e).outcome with
  | .ok _ => { logs := (exportPdf e).logs, exitCode := 0 }
  | .error m => { logs := (exportPdf e).logs ++ [m], exitCode := 1 }

/-- An environment in which every browser call succeeds. -/
def envAllOk : Env :=
  { projectRoot := "/cv"
    htmlExists := true
    launchOk := true
    newPageOk := true
    viewportOk := true
    mediaOk := true
    gotoOk := true
    fontsEvalOk := true
    imagesEvalOk := true
    bgEvalOk := true
    linksEvalOk := true
    titleEvalOk := true
    pdfOk := true
    assets := { fontsReadyAt := some 120, images := [], bgUrls := [] }
    docAnchors := [{ href := "tel:07700 900123", title := none, dataPhone := none,
                     pointerEvents := none, cursor := none }]
    docTitle := "CV"
    contentLength := 2048 }

/-- `envAllOk` with the input document missing. -/
def envNoHtml : Env := { envAllOk with htmlExists := false }

/-- `envAllOk` with the `page.pdf` call failing. -/
def envPdfFail : Env := { envAllOk with pdfOk := false }

/-- `envAllOk` with the `page.goto` call failing. -/
def envGotoFail : Env := { envAllOk with gotoOk := false }

/-- A `tel:` anchor whose number lacks the international `+`. -/
def telAnchorW : Anchor :=
  { href := "tel:07700 900123", title := none, dataPhone := none,
    pointerEvents := none, cursor := none }

/-- A `tel:` anchor whose number is already international. -/
def plusAnchorW : Anchor :=
  { href := "tel:+447700900123", title := none, dataPhone := none,
    pointerEvents := none, cursor := none }

/-- A `mailto:` anchor without a title. -/
def mailtoAnchorW : Anchor :=
  { href := "mailto:joe@example.com", title := none, dataPhone := none,
    pointerEvents := none, cursor := none }

/-- Assets whose fonts-ready signal never fires. -/
def assetsFontsNever : Assets :=
  { fontsReadyAt := none, images := [], bgUrls := [] }

/-- Assets for the bounded-wait witness: fonts ready after 100 ms, one slow
image, one broken background URL. -/
def assetsWitness : Assets :=
  { fontsReadyAt := some 100
    images := [{ complete := false, loadAt := some 9000, errorAt := none }]
    bgUrls := [{ loadAt := none, errorAt := some 300 }] }

/-! ### Helper lemmas about `dropWhile`, trimming and prefixes -/

theorem head?_dropWhile_false {α : Type} (p : α → Bool) :
    ∀ (l : List α) (a : α), (l.dropWhile p).head? = some a → p a = false := by
  intro l
  induction l with
  | nil => intro a h; simp [List.dropWhile] at h
  | cons b t ih =>
    intro a h
    rw [List.dropWhile_cons] at h
    split at h
    · exact ih a h
    · next hb =>
      simp only [List.head?_cons, Option.some.injEq] at h
      subst h
      simpa using hb

theorem dropWhile_of_head_false {α : Type} (p : α → Bool) (l : List α)
    (h : ∀ a, l.head? = some a → p a = false) : l.dropWhile p = l := by
  cases l with
  | nil => rfl
  | cons b t =>
    rw [List.dropWhile_cons]
    simp [h b rfl]

theorem getLast?_dropWhile {α : Type} (p : α → Bool) :
    ∀ (l : List α) (d : α), (l.dropWhile p).getLast? = some d → l.getLast? = some d := by
  intro l
  induction l with
  | nil => intro d h; simp [List.dropWhile] at h
  | cons b t ih =>
    intro d h
    rw [List.dropWhile_cons] at h
    split at h
    · have ht := ih d h
      cases t with
      | nil => simp at ht
      | cons c u => rw [List.getLast?_cons_cons]; exact ht
    · exact h

theorem jsTrimList_head_false (l : List Char) (c : Char)
    (h : (jsTrimList l).head? = some c) : jsWhitespace c = false :=
  head?_dropWhile_false jsWhitespace _ c h

theorem jsTrimList_getLast_false (l : List Char) (d : Char)
    (h : (jsTrimList l).getLast? = some d) : jsWhitespace d = false := by
  unfold jsTrimList at h
  have h2 := getLast?_dropWhile jsWhitespace _ d h
  rw [List.getLast?_reverse] at h2
  exact head?_dropWhile_false jsWhitespace _ d h2

theorem jsTrimList_of_ends (l : List Char) (c d : Char)
    (hc : l.head? = some c) (hcw : jsWhitespace c = false)
    (hd : l.getLast? = some d) (hdw : jsWhitespace d = false) :
    jsTrimList l = l := by
  unfold jsTrimList
  have h1 : l.reverse.dropWhile jsWhitespace = l.reverse := by
    apply dropWhile_of_head_false
    intro a ha
    rw [List.head?_reverse] at ha
    injection hd.symm.trans ha with hda
    subst hda
    exact hdw
  rw [h1, List.reverse_reverse]
  apply dropWhile_of_head_false
  intro a ha
  injection hc.symm.trans ha with hca
  subst hca
  exact hcw

theorem isPrefixOf_append_self {α : Type} [BEq α] [LawfulBEq α] (l t : List α) :
    l.isPrefixOf (l ++ t) = true := by
  induction l with
  | nil => simp [List.isPrefixOf]
  | cons a l ih =>
    show (a == a && l.isPrefixOf (l ++ t)) = true
    simp [ih]

theorem eq_append_of_isPrefixOf {α : Type} [BEq α] [LawfulBEq α] :
    ∀ (pre l : List α), pre.isPrefixOf l = true → ∃ t, l = pre ++ t := by
  intro pre
  induction pre with
  | nil => intro l _; exact ⟨l, rfl⟩
  | cons a as ih =>
    intro l h
    cases l with
    | nil => simp [List.isPrefixOf] at h
    | cons b bs =>
      have h' : (a == b && as.isPrefixOf bs) = true := h
      have hab : a = b := eq_of_beq ((Bool.and_eq_true _ _).mp h').1
      obtain ⟨t, ht⟩ := ih bs ((Bool.and_eq_true _ _).mp h').2
      subst hab
      exact ⟨t, by rw [ht]; rfl⟩

/-! ### Helper lemmas about `runSeq` and `exportPdf` -/

theorem runSeq_ok_events :
    ∀ l : List (Ev × Bool), (runSeq l).2 = true → (runSeq l).1 = l.map Prod.fst := by
  intro l
  induction l with
  | nil => intro _; rfl
  | cons s rest ih =>
    intro h
    by_cases hs : s.2
    · simp only [runSeq, hs, if_true] at h ⊢
      rw [List.map_cons, ih h]
    · simp [runSeq, hs] at h

theorem runSeq_events_take :
    ∀ l : List (Ev × Bool), ∃ n, n ≤ l.length ∧ (runSeq l).1 = (l.map Prod.fst).take n := by
  intro l
  induction l with
  | nil => exact ⟨0, by simp, rfl⟩
  | cons s rest ih =>
    by_cases hs : s.2
    · obtain ⟨n, hn, he⟩ := ih
      refine ⟨n + 1, by simpa using hn, ?_⟩
      simp only [runSeq, hs, if_true, List.map_cons, List.take_succ_cons]
      rw [he]
    · exact ⟨1, by simp, by simp [runSeq, hs]⟩

theorem exportPdf_ok_iff (e : Env) :
    (exportPdf e).outcome = .ok () ↔
      e.htmlExists = true ∧ e.launchOk = true ∧ (runSeq (bodySteps e)).2 = true := by
  unfold exportPdf
  by_cases h1 : e.htmlExists = false
  · simp [h1]
  · simp only [Bool.not_eq_false] at h1
    by_cases h2 : e.launchOk = false
    · simp [h1, h2]
    · simp only [Bool.not_eq_false] at h2
      by_cases hr : (runSeq (bodySteps e)).2 = true <;> simp [h1, h2, hr]

theorem exportPdf_events_launched (e : Env) (h1 : e.htmlExists = true)
    (h2 : e.launchOk = true) :
    (exportPdf e).events = Ev.launch :: ((runSeq (bodySteps e)).1 ++ [Ev.close]) := by
  simp [exportPdf, h1, h2]

/-! ### Helper lemmas about the JavaScript string primitives -/

theorem jsStartsWith_append (pre t : String) : jsStartsWith (pre ++ t) pre = true := by
  unfold jsStartsWith
  rw [String.data_append]
  exact isPrefixOf_append_self _ _

theorem stripPre_append (pre t : String) : stripPre (pre ++ t) pre = t := by
  apply String.ext
  show (pre ++ t).data.drop pre.data.length = t.data
  rw [String.data_append, List.drop_left]

theorem data_of_plus (s : String) (h : jsStartsWith s "+" = true) :
    ∃ r, s.data = '+' :: r := by
  unfold jsStartsWith at h
  obtain ⟨r, hr⟩ := eq_append_of_isPrefixOf _ _ h
  exact ⟨r, hr⟩

theorem getLast?_isSome_of_cons {α : Type} :
    ∀ (a : α) (l : List α), ∃ d, (a :: l).getLast? = some d := by
  intro a l
  induction l generalizing a with
  | nil => exact ⟨a, rfl⟩
  | cons b t ih =>
    obtain ⟨d, hd⟩ := ih b
    exact ⟨d, by rw [List.getLast?_cons_cons]; exact hd⟩

theorem jsTrim_data (q : String) : (jsTrim q).data = jsTrimList q.data := rfl

theorem jsTrim_fix_of_plus_trimmed (q : String)
    (h : jsStartsWith (jsTrim q) "+" = true) : jsTrim (jsTrim q) = jsTrim q := by
  obtain ⟨r, hr⟩ := data_of_plus _ h
  apply String.ext
  rw [jsTrim_data]
  obtain ⟨d, hd⟩ := getLast?_isSome_of_cons '+' r
  have hd2 : (jsTrim q).data.getLast? = some d := by rw [hr]; exact hd
  have hdw : jsWhitespace d = false := by
    apply jsTrimList_getLast_false q.data d
    rw [← jsTrim_data]
    exact hd2
  apply jsTrimList_of_ends _ '+' d
  · rw [hr]; rfl
  · decide
  · exact hd2
  · exact hdw

theorem jsTrim_fix_of_plus_prepended (q : String) :
    jsTrim ("+" ++ jsTrim q) = "+" ++ jsTrim q := by
  apply String.ext
  rw [jsTrim_data]
  have hdata : ("+" ++ jsTrim q).data = '+' :: (jsTrim q).data := by
    rw [String.data_append]; rfl
  cases hq : (jsTrim q).data with
  | nil =>
    rw [hdata, hq]
    decide
  | cons c r =>
    obtain ⟨d, hd⟩ := getLast?_isSome_of_cons c r
    have hdw : jsWhitespace d = false := by
      apply jsTrimList_getLast_false q.data d
      rw [← jsTrim_data, hq]
      exact hd
    apply jsTrimList_of_ends _ '+' d
    · rw [hdata]; rfl
    · decide
    · rw [hdata, hq, List.getLast?_cons_cons]
      exact hd
    · exact hdw

theorem telPlus_eq (p : String) : ("tel:+" ++ p) = "tel:" ++ ("+" ++ p) := by
  apply String.ext
  rw [String.data_append, String.data_append, String.data_append]
  rfl

/-! ### Helper lemmas about the link normalization -/

theorem hrefFix_tel (h : String) (hs : jsStartsWith h "tel:" = true) :
    hrefFix h =
      "tel:" ++
        (if jsStartsWith (jsTrim (stripPre h "tel:")) "+" then
          jsTrim (stripPre h "tel:")
        else "+" ++ jsTrim (stripPre h "tel:")) := by
  unfold hrefFix
  rw [if_pos hs]
  by_cases hp : jsStartsWith (jsTrim (stripPre h "tel:")) "+" = true
  · rw [if_pos hp, if_pos hp]
  · rw [if_neg hp, if_neg hp, telPlus_eq]

theorem hrefFix_idem (h : String) : hrefFix (hrefFix h) = hrefFix h := by
  by_cases hs : jsStartsWith h "tel:" = true
  · rw [hrefFix_tel h hs]
    set q := stripPre h "tel:" with hq
    set nn :=
      (if jsStartsWith (jsTrim q) "+" then jsTrim q else "+" ++ jsTrim q) with hnn
    have hfix : jsTrim nn = nn := by
      rw [hnn]
      by_cases hp : jsStartsWith (jsTrim q) "+" = true
      · rw [if_pos hp]
        exact jsTrim_fix_of_plus_trimmed q hp
      · rw [if_neg hp]
        exact jsTrim_fix_of_plus_prepended q
    have hplus : jsStartsWith nn "+" = true := by
      rw [hnn]
      by_cases hp : jsStartsWith (jsTrim q) "+" = true
      · rw [if_pos hp]; exact hp
      · rw [if_neg hp]; exact jsStartsWith_append "+" (jsTrim q)
    rw [hrefFix_tel _ (jsStartsWith_append "tel:" nn), stripPre_append, hfix,
      if_pos hplus]
  · have hs' : jsStartsWith h "tel:" = false := by
      cases hb : jsStartsWith h "tel:"
      · rfl
      · exact absurd hb hs
    unfold hrefFix
    rw [if_neg hs, if_neg hs]

theorem mailtoFix_href (a : Anchor) : (mailtoFix a).href = a.href := by
  unfold mailtoFix
  split <;> rfl

theorem telFix_href (a : Anchor) : (telFix a).href = hrefFix a.href := by
  unfold telFix hrefFix
  by_cases hs : jsStartsWith a.href "tel:" = true
  · rw [if_pos hs, if_pos hs]
  · rw [if_neg hs, if_neg hs]

theorem normAnchor_href (a : Anchor) : (normAnchor a).href = hrefFix a.href := by
  unfold normAnchor
  rw [mailtoFix_href, telFix_href]

/-! ### The claims -/

/-- C8: the `tel:` link normalization is idempotent and preserves
already-international numbers.  For every anchor whose href starts with
`tel:`, when the phone number after `tel:` (trimmed) starts with `+` the
href becomes `tel:` followed by exactly that number, otherwise a single `+`
is prefixed; and applying the normalization a second time leaves every
anchor's href unchanged. -/
theorem spec_C8_tel_normalization (a : Anchor)
    (h : jsStartsWith a.href "tel:" = true) :
    ((jsStartsWith (jsTrim (stripPre a.href "tel:")) "+" = true →
        (telFix a).href = "tel:" ++ jsTrim (stripPre a.href "tel:")) ∧
      (jsStartsWith (jsTrim (stripPre a.href "tel:")) "+" = false →
        (telFix a).href = "tel:+" ++ jsTrim (stripPre a.href "tel:"))) ∧
    ∀ b : Anchor, (normAnchor (normAnchor b)).href = (normAnchor b).href := by
  refine ⟨⟨?_, ?_⟩, ?_⟩
  · intro hp
    rw [telFix_href, hrefFix_tel _ h, if_pos hp]
  · intro hp
    rw [telFix_href, hrefFix_tel _ h, telPlus_eq]
    simp only [hp, Bool.false_eq_true, if_false]
  · intro b
    rw [normAnchor_href, normAnchor_href, hrefFix_idem]

/-- Witness for C8: a national number gets `+` prefixed, an international
one is kept verbatim, and renormalizing changes no href. -/
theorem spec_C8_witness :
    (telFix telAnchorW).href = "tel:+07700 900123" ∧
    (telFix plusAnchorW).href = "tel:+447700900123" ∧
    (normAnchor (normAnchor telAnchorW)).href = (normAnchor telAnchorW).href := by
  refine ⟨?_, ?_, (spec_C8_tel_normalization telAnchorW (by decide)).2 telAnchorW⟩
  · rw [(spec_C8_tel_normalization telAnchorW (by decide)).1.2 (by decide)]
    decide
  · rw [(spec_C8_tel_normalization plusAnchorW (by decide)).1.1 (by decide)]
    decide

/-- C9: the `mailto:` pass never modifies the href of a `mailto:` anchor;
it only sets a title when none is present and the two inline style
properties, leaving href and `data-phone` exactly as they were. -/
theorem spec_C9_mailto_preserves_href (a : Anchor)
    (h : jsStartsWith a.href "mailto:" = true) :
    (normAnchor a).href = a.href ∧
    normAnchor a =
      { a with
        title :=
          if titleFalsy a.title then some ("Email " ++ stripPre a.href "mailto:")
          else a.title
        pointerEvents := some "auto"
        cursor := some "pointer" } := by
  have htel : jsStartsWith a.href "tel:" = false := by
    unfold jsStartsWith at h ⊢
    obtain ⟨t, ht⟩ := eq_append_of_isPrefixOf _ _ h
    rw [ht]
    show (('t' == 'm') && _) = false
    rw [show (('t' : Char) == 'm') = false by decide, Bool.false_and]
  have hT : telFix a = a := by
    unfold telFix
    rw [if_neg (by simp [htel])]
  constructor
  · rw [normAnchor_href]
    unfold hrefFix
    rw [if_neg (by simp [htel])]
  · unfold normAnchor
    rw [hT]
    unfold mailtoFix
    rw [if_pos h]

/-- Witness for C9 at a concrete `mailto:` anchor. -/
theorem spec_C9_witness :
    (normAnchor mailtoAnchorW).href = "mailto:joe@example.com" ∧
    (normAnchor mailtoAnchorW).title = some "Email joe@example.com" := by
  have h := spec_C9_mailto_preserves_href mailtoAnchorW (by decide)
  constructor
  · rw [h.1]
    decide
  · rw [h.2]
    decide

/-- C1: on every successful run, exactly one PDF file is produced, at the
fixed path `<projectRoot>/dist/Joe-Sturdy-CV.pdf`, with nonzero size, page
size 210mm × 297mm regardless of the content length (the environment's
`contentLength` is universally quantified), zero margins on all four
sides, background printing enabled, and tagged/outline accessibility
metadata enabled. -/
theorem spec_C1_pdf_output (e : Env) (h : (exportPdf e).outcome = .ok ()) :
    ∃ f : PdfFile, filesWritten e = [f] ∧
      f.path = e.projectRoot ++ "/dist/Joe-Sturdy-CV.pdf" ∧
      0 < f.sizeBytes ∧
      f.pageWidth = "210mm" ∧ f.pageHeight = "297mm" ∧
      f.marginTop = 0 ∧ f.marginBottom = 0 ∧ f.marginLeft = 0 ∧
      f.marginRight = 0 ∧ f.backgroundsPrinted = true ∧ f.tagged = true ∧
      f.outlined = true := by
  refine ⟨renderPdf (pdfOpts e.projectRoot) (pageAtPdf e).title e.contentLength,
    ?_, rfl, ?_, rfl, rfl, rfl, rfl, rfl, rfl, rfl, rfl, rfl⟩
  · unfold filesWritten
    rw [h]
  · show 0 < 1024 + e.contentLength
    omega

/-- Witness for C1: the all-success environment. -/
theorem spec_C1_witness :
    ∃ f : PdfFile, filesWritten envAllOk = [f] ∧
      f.path = envAllOk.projectRoot ++ "/dist/Joe-Sturdy-CV.pdf" ∧
      0 < f.sizeBytes ∧
      f.pageWidth = "210mm" ∧ f.pageHeight = "297mm" ∧
      f.marginTop = 0 ∧ f.marginBottom = 0 ∧ f.marginLeft = 0 ∧
      f.marginRight = 0 ∧ f.backgroundsPrinted = true ∧ f.tagged = true ∧
      f.outlined = true :=
  spec_C1_pdf_output envAllOk rfl

/-- C2: when `index.html` is missing, `exportPdf` fails before any browser
work (no browser event at all), the error propagates, no PDF file is
produced, and the script exits with code 1. -/
theorem spec_C2_missing_input (e : Env) (h : e.htmlExists = false) :
    (exportPdf e).events = [] ∧
    (exportPdf e).outcome =
      .error ("index.html not found at " ++ htmlPath e.projectRoot) ∧
    filesWritten e = [] ∧
    (runScript e).exitCode = 1 := by
  have he : exportPdf e =
      { events := []
        logs := []
        outcome := .error ("index.html not found at " ++ htmlPath e.projectRoot) } := by
    unfold exportPdf
    rw [if_pos h]
  refine ⟨by rw [he], by rw [he], ?_, ?_⟩
  · unfold filesWritten
    rw [he]
  · unfold runScript
    rw [he]

/-- Witness for C2: the concrete environment with the document missing. -/
theorem spec_C2_witness :
    (exportPdf envNoHtml).events = [] ∧
    (exportPdf envNoHtml).outcome =
      .error ("index.html not found at " ++ htmlPath envNoHtml.projectRoot) ∧
    filesWritten envNoHtml = [] ∧
    (runScript envNoHtml).exitCode = 1 :=
  spec_C2_missing_input envNoHtml rfl

/-- C4: on every path after the browser is acquired — success or any later
failure — the event trace ends with `browser.close` before `exportPdf`
returns or propagates, and the launch did happen. -/
theorem spec_C4_browser_released (e : Env) (h1 : e.htmlExists = true)
    (h2 : e.launchOk = true) :
    ∃ pre, (exportPdf e).events = pre ++ [Ev.close] ∧
      Ev.launch ∈ (exportPdf e).events := by
  refine ⟨Ev.launch :: (runSeq (bodySteps e)).1, ?_, ?_⟩ <;>
    simp [exportPdf, h1, h2]

/-- Witness for C4: a run whose navigation step throws still closes the
browser. -/
theorem spec_C4_witness :
    ∃ pre, (exportPdf envGotoFail).events = pre ++ [Ev.close] ∧
      Ev.launch ∈ (exportPdf envGotoFail).events :=
  spec_C4_browser_released envGotoFail rfl rfl

/-- C6: exit code 0 exactly on success; any propagated failure reaches the
top-level handler, which records the error in the console output and sets
the exit code to 1; no other exit code occurs. -/
theorem spec_C6_exit_codes (e : Env) :
    ((exportPdf e).outcome = .ok () → (runScript e).exitCode = 0) ∧
    (∀ m, (exportPdf e).outcome = .error m →
      (runScript e).exitCode = 1 ∧ m ∈ (runScript e).logs) ∧
    ((runScript e).exitCode = 0 ∨ (runScript e).exitCode = 1) := by
  cases ho : (exportPdf e).outcome with
  | ok u =>
    cases u
    refine ⟨fun _ => ?_, fun m hm => ?_, Or.inl ?_⟩
    · simp [runScript, ho]
    · cases hm
    · simp [runScript, ho]
  | error m =>
    refine ⟨fun hk => ?_, fun m2 hm => ?_, Or.inr ?_⟩
    · cases hk
    · injection hm with hmm
      subst hmm
      exact ⟨by simp [runScript, ho], by simp [runScript, ho]⟩
    · simp [runScript, ho]

/-- Witness for C6: exit code 0 on the all-success run, exit code 1 with
the logged error on a run whose `page.pdf` call throws. -/
theorem spec_C6_witness :
    (runScript envAllOk).exitCode = 0 ∧
    (runScript envPdfFail).exitCode = 1 ∧
    "browser step failed" ∈ (runScript envPdfFail).logs :=
  ⟨(spec_C6_exit_codes envAllOk).1 rfl,
   ((spec_C6_exit_codes envPdfFail).2.1 "browser step failed" rfl).1,
   ((spec_C6_exit_codes envPdfFail).2.1 "browser step failed" rfl).2⟩

/-- C10: immediately before PDF generation the document title is
unconditionally overwritten to the fixed string, whatever title the input
document declared (the environment's `docTitle` is universally
quantified); the produced PDF carries that constant as metadata title, and
in the trace the title-setting evaluate immediately precedes the
`page.pdf` call. -/
theorem spec_C10_title_override (e : Env) (h : (exportPdf e).outcome = .ok ()) :
    (pageAtPdf e).title = "Joe Sturdy - AI Solutions Architect CV" ∧
    (∀ f ∈ filesWritten e, f.title = "Joe Sturdy - AI Solutions Architect CV") ∧
    ∃ pre post, (exportPdf e).events =
      pre ++ [Ev.evalSetTitle cvTitle, Ev.pdf (pdfOpts e.projectRoot)] ++ post := by
  obtain ⟨h1, h2, hr⟩ := (exportPdf_ok_iff e).mp h
  refine ⟨rfl, ?_, ?_⟩
  · intro f hf
    unfold filesWritten at hf
    rw [h] at hf
    simp only [List.mem_singleton] at hf
    rw [hf]
    rfl
  · refine ⟨[Ev.launch, Ev.newPage, Ev.setViewport 794 1123 2, Ev.emulateMedia "print",
      Ev.goto (fileUrl e.projectRoot) 30000, Ev.evalFontsReady, Ev.evalWaitImages,
      Ev.evalWaitBgImages, Ev.sleep 1500, Ev.evalNormalizeLinks], [Ev.close], ?_⟩
    have hev := runSeq_ok_events (bodySteps e) hr
    rw [exportPdf_events_launched e h1 h2, hev]
    simp [bodySteps]

/-- Witness for C10: the all-success environment, whose input document
declared the title "CV". -/
theorem spec_C10_witness :
    (pageAtPdf envAllOk).title = "Joe Sturdy - AI Solutions Architect CV" ∧
    (∀ f ∈ filesWritten envAllOk,
      f.title = "Joe Sturdy - AI Solutions Architect CV") ∧
    ∃ pre post, (exportPdf envAllOk).events =
      pre ++ [Ev.evalSetTitle cvTitle, Ev.pdf (pdfOpts envAllOk.projectRoot)] ++ post :=
  spec_C10_title_override envAllOk rfl

theorem imgWaitSettle_time_le (i : ImgAsset) : (imgWaitSettle i).time ≤ 5000 := by
  unfold imgWaitSettle
  split
  · exact Nat.zero_le _
  · show min (min (i.loadAt.getD 5000) (i.errorAt.getD 5000)) 5000 ≤ 5000
    exact min_le_right _ _

theorem bgWaitSettle_time_le (b : BgAsset) : (bgWaitSettle b).time ≤ 5000 := by
  show min (min (b.loadAt.getD 5000) (b.errorAt.getD 5000)) 5000 ≤ 5000
  exact min_le_right _ _

theorem foldr_max_le {α : Type} (f : α → Nat) (c : Nat) :
    ∀ l : List α, (∀ x ∈ l, f x ≤ c) →
      l.foldr (fun x acc => max (f x) acc) 0 ≤ c := by
  intro l
  induction l with
  | nil => intro _; exact Nat.zero_le c
  | cons x t ih =>
    intro h
    simp only [List.foldr_cons]
    exact max_le (h x (List.mem_cons_self x t))
      (ih fun y hy => h y (List.mem_cons_of_mem x hy))

/-- C3 counterexample: the fonts-ready wait has no timeout, so when the
fonts signal never fires the asset-loading phase never completes at all —
in particular it is not bounded by the sum of the per-category timeouts,
refuting the claim for this combination of assets. -/
theorem spec_C3_counterexample :
    assetPhaseDuration assetsFontsNever = none ∧
    ¬ ∃ t, assetPhaseDuration assetsFontsNever = some t ∧
        t ≤ perCategoryTimeoutSum := by
  refine ⟨rfl, ?_⟩
  rintro ⟨t, ht, _⟩
  rw [show assetPhaseDuration assetsFontsNever = none from rfl] at ht
  cases ht

/-- C3 (amended): each per-image and per-background-image wait is bounded
by its independent 5000 ms timeout, so the image phase and the
background-image phase each take at most 5000 ms and together at most the
sum of the per-category timeouts; the fonts-ready wait has no timeout, and
the asset-loading phase completes — in fonts time plus at most the two
5000 ms phases — exactly when the fonts signal fires. -/
theorem spec_C3_bounded_asset_waits (a : Assets) (tf : Nat)
    (h : a.fontsReadyAt = some tf) :
    assetPhaseDuration a =
      some (tf + imagesPhaseDuration a.images + bgPhaseDuration a.bgUrls) ∧
    imagesPhaseDuration a.images ≤ 5000 ∧
    bgPhaseDuration a.bgUrls ≤ 5000 ∧
    imagesPhaseDuration a.images + bgPhaseDuration a.bgUrls ≤
      perCategoryTimeoutSum ∧
    (∀ i ∈ a.images, (imgWaitSettle i).time ≤ 5000) ∧
    (∀ b ∈ a.bgUrls, (bgWaitSettle b).time ≤ 5000) := by
  have himg : imagesPhaseDuration a.images ≤ 5000 :=
    foldr_max_le (fun i => (imgWaitSettle i).time) 5000 a.images
      fun i _ => imgWaitSettle_time_le i
  have hbg : bgPhaseDuration a.bgUrls ≤ 5000 :=
    foldr_max_le (fun b => (bgWaitSettle b).time) 5000 a.bgUrls
      fun b _ => bgWaitSettle_time_le b
  refine ⟨?_, himg, hbg, ?_, fun i _ => imgWaitSettle_time_le i,
    fun b _ => bgWaitSettle_time_le b⟩
  · unfold assetPhaseDuration
    rw [h]
  · exact add_le_add himg hbg

/-- Witness for C3 (amended): fonts ready after 100 ms, one image that
would load only after 9000 ms (cut off by its 5000 ms timeout), one broken
background URL erroring at 300 ms; the phase completes in 5400 ms. -/
theorem spec_C3_witness :
    assetPhaseDuration assetsWitness = some 5400 ∧
    imagesPhaseDuration assetsWitness.images ≤ 5000 ∧
    bgPhaseDuration assetsWitness.bgUrls ≤ 5000 := by
  have h := spec_C3_bounded_asset_waits assetsWitness 100 rfl
  refine ⟨?_, h.2.1, h.2.2.1⟩
  rw [h.1]
  decide

/-- C5: every per-asset wait settles via `resolve` — the `error` handlers
resolve rather than reject — and the run's console output, outcome, exit
code and produced files do not depend on the assets at all, so no asset
load failure aborts the run or surfaces as an error or nonzero exit. -/
theorem spec_C5_asset_failures_swallowed (i : ImgAsset) (b : BgAsset)
    (e : Env) (a : Assets) :
    (imgWaitSettle i).isResolved = true ∧
    (bgWaitSettle b).isResolved = true ∧
    runScript { e with assets := a } = runScript e ∧
    filesWritten { e with assets := a } = filesWritten e := by
  refine ⟨?_, rfl, rfl, rfl⟩
  unfold imgWaitSettle
  split <;> rfl

/-- C7: every launched run attempts a prefix of the one fixed linear
sequence of browser steps (no branching, no retry, no repetition) followed
by `close`, and a successful run executes exactly the full sequence:
launch, new page, viewport, print-media emulation, navigation,
fonts-ready wait, image wait, background-image wait, the 1500 ms settling
delay, link normalization, title set, the single `page.pdf` call, and
close. -/
theorem spec_C7_linear_sequence (e : Env) (h1 : e.htmlExists = true)
    (h2 : e.launchOk = true) :
    (∃ n, n ≤ 11 ∧ (exportPdf e).events =
      Ev.launch :: (((bodySteps e).map Prod.fst).take n ++ [Ev.close])) ∧
    ((exportPdf e).outcome = .ok () →
      (exportPdf e).events =
        [Ev.launch, Ev.newPage, Ev.setViewport 794 1123 2, Ev.emulateMedia "print",
         Ev.goto (fileUrl e.projectRoot) 30000, Ev.evalFontsReady,
         Ev.evalWaitImages, Ev.evalWaitBgImages, Ev.sleep 1500,
         Ev.evalNormalizeLinks, Ev.evalSetTitle cvTitle,
         Ev.pdf (pdfOpts e.projectRoot), Ev.close]) := by
  constructor
  · obtain ⟨n, hn, he⟩ := runSeq_events_take (bodySteps e)
    refine ⟨n, by simpa [bodySteps] using hn, ?_⟩
    rw [exportPdf_events_launched e h1 h2, he]
  · intro hk
    have hr := ((exportPdf_ok_iff e).mp hk).2.2
    have hev := runSeq_ok_events (bodySteps e) hr
    rw [exportPdf_events_launched e h1 h2, hev]
    simp [bodySteps]

/-- Witness for C7: the all-success environment executes exactly the full
fixed sequence. -/
theorem spec_C7_witness :
    (exportPdf envAllOk).events =
      [Ev.launch, Ev.newPage, Ev.setViewport 794 1123 2, Ev.emulateMedia "print",
       Ev.goto (fileUrl envAllOk.projectRoot) 30000, Ev.evalFontsReady,
       Ev.evalWaitImages, Ev.evalWaitBgImages, Ev.sleep 1500,
       Ev.evalNormalizeLinks, Ev.evalSetTitle cvTitle,
       Ev.pdf (pdfOpts envAllOk.projectRoot), Ev.close] :=
  (spec_C7_linear_sequence envAllOk rfl rfl).2 rfl

end CvExport
